import Mathlib

/-!
Verification of the sales-dashboard engine in `app.py` (Hemlock-Analytics).

The script's data layer consists of three functions:

* `validate_data(df)`   — returns a list of issue strings (missing required
  columns, non-numeric values, negative values, missing values);
* `calculate_metrics(df)` — computes six summary metrics and per-order-type
  breakdowns inside a `try`, returning `(None, None)` on any exception;
* `load_sales_data()`   — reads the sheet, shows validation issues as
  warnings, and returns `(df, metrics, breakdowns)` or `(None, None, None)`.

The embedding models a pandas DataFrame as an association list of named
columns, each a list of cells.  A cell is a finite number, a string, or a
missing value (`na`, pandas `NaN`).  Arithmetic follows the semantics the
script actually exercises:

* `Series.sum()` skips `NaN`, sums an all-numeric column, concatenates an
  all-string (object-dtype) column, and raises `TypeError` on mixed types;
  an absent column raises `KeyError` at `df[col]`.
* Division of the (numpy-scalar) sums by zero does not raise: it silently
  yields `inf` / `-inf` / `nan` (a `RuntimeWarning` is printed, not thrown);
  division with a string operand raises `TypeError`.
* `pd.to_numeric(-, errors=coerce)` turns unparseable values into `NaN`;
  the model's parser accepts optionally signed plain decimal literals with
  surrounding whitespace (the only numeric shapes the data exercises;
  currency strings such as `$1,000.00`, `N/A`, `$-` and the empty string
  all fail to parse, exactly as in pandas).

Exceptions are modelled with `Except Unit`; the `try/except` in
`calculate_metrics` turns any of them into `none`.  Numbers are modelled
exactly over `ℚ` (the script's decimal data is exact in this range, and the
spec's 1e-6 tolerance is subsumed by exact equality).
-/

namespace Hemlock

/- Batteries marks the `Rat` arithmetic operations `@[irreducible]`.  The
concrete runs of the engine below are checked by kernel reduction, which
needs these definitions to unfold; restore the default reducibility for
this file. -/
attribute [local semireducible] Rat.mul Rat.add Rat.sub Rat.inv

/-- A raw spreadsheet cell: a finite number, a text cell, or a missing value
(pandas `NaN`). -/
inductive Cell
  | num (q : ℚ)
  | str (s : String)
  | na
  deriving DecidableEq, Repr

/-- A value computed by the script: sums are numbers or concatenated strings,
divisions may additionally produce `inf`, `-inf` or `nan` (numpy scalar
division by zero does not raise). -/
inductive MVal
  | num (q : ℚ)
  | str (s : String)
  | inf
  | ninf
  | nan
  deriving DecidableEq, Repr

def Cell.isNa : Cell → Bool
  | .na => true
  | _ => false

def Cell.isNum : Cell → Bool
  | .num _ => true
  | _ => false

def Cell.isStr : Cell → Bool
  | .str _ => true
  | _ => false

/-- Numeric payload of a cell (only used under an `isNum` guard). -/
def Cell.qval : Cell → ℚ
  | .num q => q
  | _ => 0

/-- String payload of a cell (only used under an `isStr` guard). -/
def Cell.sval : Cell → String
  | .str s => s
  | _ => ""

/-- A DataFrame: named columns in order, each a list of cells.  `read_excel`
mangles duplicate header labels (`X`, `X.1`, ...), so frames reaching the
script have pairwise distinct column names; lookup takes the first match. -/
abbrev DataFrame := List (String × List Cell)

/-- Column lookup, `df[col]`: first column with the given label. -/
def getCol : DataFrame → String → Option (List Cell)
  | [], _ => none
  | (n, cs) :: rest, c => if n = c then some cs else getCol rest c

/-- Python `col in df.columns`. -/
def hasCol (df : DataFrame) (c : String) : Bool :=
  (getCol df c).isSome

/-- Cells of a column, empty when the column is absent. -/
def colCells (df : DataFrame) (c : String) : List Cell :=
  (getCol df c).getD []

/-! ### Numeric coercion (`pd.to_numeric(-, errors=coerce)`) -/

/-- Value of a digit string. -/
def digitsVal (l : List Char) : ℕ :=
  l.foldl (fun n c => 10 * n + (c.toNat - 48)) 0

/-- Parse an unsigned decimal literal: digits, optionally with a fractional
part (`12`, `12.5`, `12.`, `.5`).  Anything else fails. -/
def parseUnsigned (l : List Char) : Option ℚ :=
  let ip := l.takeWhile Char.isDigit
  let rest := l.dropWhile Char.isDigit
  match rest with
  | [] => if ip.isEmpty then none else some (digitsVal ip)
  | '.' :: fp =>
      if fp.all Char.isDigit && !(ip.isEmpty && fp.isEmpty) then
        some ((digitsVal ip : ℚ) + (digitsVal fp : ℚ) / (10 : ℚ) ^ fp.length)
      else none
  | _ => none

/-- Strip leading and trailing whitespace from a character list. -/
def trimChars (l : List Char) : List Char :=
  ((l.dropWhile Char.isWhitespace).reverse.dropWhile Char.isWhitespace).reverse

/-- Parse an optionally signed decimal literal with surrounding whitespace. -/
def parseNumeric (s : String) : Option ℚ :=
  match trimChars s.toList with
  | '+' :: r => parseUnsigned r
  | '-' :: r => (parseUnsigned r).map (fun q => -q)
  | l => parseUnsigned l

/-- Model of `pd.to_numeric(cell, errors=coerce)`: `some q` when the cell is numeric
or parses as a number, `none` for the coerced `NaN`. -/
def toNumeric : Cell → Option ℚ
  | .num q => some q
  | .str s => parseNumeric s
  | .na => none

/-! ### `validate_data` (app.py lines 48–77) -/

def requiredColumns : List String :=
  ["Order type", "Total sales", "Covers", "Receipts", "USD/cover", "USD/receipt"]

def numericColumns : List String :=
  ["Total sales", "Covers", "Receipts", "USD/cover", "USD/receipt"]

/-- First check: required columns present (lines 52–56); the filtered list
is the Python `missing_columns`. -/
def missingColsIssues (df : DataFrame) : List String :=
  if (requiredColumns.filter (fun c => !hasCol df c)).isEmpty then []
  else ["Missing required columns: "
        ++ String.intercalate ", " (requiredColumns.filter (fun c => !hasCol df c))]

/-- Second check: numeric columns coerce without `NaN` (lines 58–63). -/
def nonNumericIssues (df : DataFrame) : List String :=
  numericColumns.filterMap (fun c =>
    match getCol df c with
    | none => none
    | some cells =>
        if cells.all (fun cell => (toNumeric cell).isSome) then none
        else some ("Non-numeric values found in " ++ c))

/-- The coerced value of a cell is a negative number. -/
def negParsed (cell : Cell) : Bool :=
  match toNumeric cell with
  | some q => decide (q < 0)
  | none => false

/-- Third check: no negative values among coerced cells (lines 65–69;
`NaN < 0` is false, so unparseable cells never count as negative). -/
def negativeIssues (df : DataFrame) : List String :=
  numericColumns.filterMap (fun c =>
    match getCol df c with
    | none => none
    | some cells =>
        if cells.any negParsed then some ("Negative values found in " ++ c)
        else none)

/-- Fourth check: per-column missing-value counts (lines 71–75); the
filtered length is the Python `missing_count`. -/
def missingValueIssues (df : DataFrame) : List String :=
  df.filterMap (fun col =>
    if (col.2.filter Cell.isNa).length > 0 then
      some ("Missing values in " ++ col.1 ++ ": "
            ++ toString (col.2.filter Cell.isNa).length ++ " rows")
    else none)

/-- The function `validate_data` (app.py lines 48–77): the four checks' issues, in
program order.  The function only reads `df` and returns the list. -/
def validate_data (df : DataFrame) : List String :=
  missingColsIssues df ++ nonNumericIssues df ++ negativeIssues df
    ++ missingValueIssues df

/-! ### pandas sums and groupby used by `calculate_metrics` -/

/-- Model of `Series.sum()`: skip `NaN`; an empty series sums to `0`; an all-numeric
series sums numerically; an all-string (object-dtype) series concatenates;
mixed numbers and strings raise `TypeError`. -/
def sumCells (cells : List Cell) : Except Unit MVal :=
  let vals := cells.filter (fun c => !c.isNa)
  if vals.isEmpty then .ok (.num 0)
  else if vals.all Cell.isNum then .ok (.num ((vals.map Cell.qval).sum))
  else if vals.all Cell.isStr then .ok (.str (String.join (vals.map Cell.sval)))
  else .error ()

/-- Model of `df[col].sum()`: `KeyError` when the column is absent, else the series
sum. -/
def sumColumn (df : DataFrame) (c : String) : Except Unit MVal :=
  match getCol df c with
  | none => .error ()
  | some cells => sumCells cells

/-- Model of `df.groupby(keyCol)[valCol].sum().to_dict()`: group values by key
(dropping `NaN` keys, as `groupby` does), sum each group.  `KeyError` when
either column is absent.  pandas sorts the group keys; no property below
depends on the key order, so first-appearance order is used. -/
def groupSum (df : DataFrame) (keyCol valCol : String) :
    Except Unit (List (Cell × MVal)) :=
  match getCol df keyCol, getCol df valCol with
  | some ks, some vs =>
      let pairs := (ks.zip vs).filter (fun p => !p.1.isNa)
      let keys := pairs.foldl (fun acc p => if p.1 ∈ acc then acc else acc ++ [p.1]) []
      keys.mapM (fun k =>
        (sumCells ((pairs.filter (fun p => decide (p.1 = k))).map Prod.snd)).map
          (fun s => (k, s)))
  | _, _ => .error ()

/-- Division at app.py lines 107/114/121.  The operands are the column sums:
numpy numeric scalars or (for an object-dtype string column) a Python `str`.
Numeric division by zero silently yields `inf`/`-inf`/`nan`; a string
operand raises `TypeError`.  (Other `MVal` shapes never reach a division.) -/
def pyDiv : MVal → MVal → Except Unit MVal
  | .num a, .num b =>
      if b = 0 then
        .ok (if 0 < a then .inf else if a < 0 then .ninf else .nan)
      else .ok (.num (a / b))
  | _, _ => .error ()

/-! ### `calculate_metrics` (app.py lines 79–131) -/

/-- The metrics dict: insertion-ordered key/value pairs. -/
abbrev Metrics := List (String × MVal)

/-- The `by_order_type` parts of the breakdowns dict (the remaining entries
are constant format strings whose construction cannot fail once the
divisions have succeeded, so they carry no information). -/
structure Breakdowns where
  sales : List (Cell × MVal)
  covers : List (Cell × MVal)
  receipts : List (Cell × MVal)
  deriving DecidableEq, Repr

/-- Body of the `try` block of `calculate_metrics`, in program order:
three column sums with their groupbys (lines 86–104), then the three
derived ratios (lines 107, 114, 121). -/
def calcInner (df : DataFrame) : Except Unit (Metrics × Breakdowns) :=
  match sumColumn df "Total sales" with
  | .error _ => .error ()
  | .ok ts =>
  match groupSum df "Order type" "Total sales" with
  | .error _ => .error ()
  | .ok gts =>
  match sumColumn df "Covers" with
  | .error _ => .error ()
  | .ok tc =>
  match groupSum df "Order type" "Covers" with
  | .error _ => .error ()
  | .ok gtc =>
  match sumColumn df "Receipts" with
  | .error _ => .error ()
  | .ok tr =>
  match groupSum df "Order type" "Receipts" with
  | .error _ => .error ()
  | .ok gtr =>
  match pyDiv ts tr with
  | .error _ => .error ()
  | .ok avg =>
  match pyDiv ts tc with
  | .error _ => .error ()
  | .ok rpc =>
  match pyDiv tr tc with
  | .error _ => .error ()
  | .ok ipc =>
      .ok ([("total_sales", ts), ("total_covers", tc), ("total_receipts", tr),
            ("avg_check", avg), ("revenue_per_cover", rpc),
            ("items_per_cover", ipc)],
           ⟨gts, gtc, gtr⟩)

/-- The function `calculate_metrics` (app.py lines 79–131): the `try` body, with any
exception caught and turned into `(None, None)`. -/
def calculate_metrics (df : DataFrame) : Option (Metrics × Breakdowns) :=
  match calcInner df with
  | .ok r => some r
  | .error _ => none

/-- The function `load_sales_data` (app.py lines 133–154), from the point where the sheet
has been read into `df`: validation issues are only displayed as warnings
(lines 139–143), then metrics are computed; `(None, None, None)` exactly
when `calculate_metrics` failed. -/
def load_sales_data (df : DataFrame) : Option (DataFrame × Metrics × Breakdowns) :=
  match calculate_metrics df with
  | some (m, b) => some (df, m, b)
  | none => none

/-- Value of a metric key on a given frame, `none` when the computation
failed or the key is absent. -/
def metricValue (df : DataFrame) (k : String) : Option MVal :=
  match calculate_metrics df with
  | some (m, _) => List.lookup k m
  | none => none

/-! ### The validator as a state-threading pass

The four checks of `validate_data`, each threaded over the pair
`(issues, df)`: every check reads the frame, may append issue strings, and
hands the frame on.  No assignment into `df` occurs anywhere in the Python
function (its only writes are `issues.append`), which the threaded form
makes explicit. -/

def checkRequired (s : List String × DataFrame) : List String × DataFrame :=
  (s.1 ++ missingColsIssues s.2, s.2)

def checkNumeric (s : List String × DataFrame) : List String × DataFrame :=
  (s.1 ++ nonNumericIssues s.2, s.2)

def checkNegative (s : List String × DataFrame) : List String × DataFrame :=
  (s.1 ++ negativeIssues s.2, s.2)

def checkMissingVals (s : List String × DataFrame) : List String × DataFrame :=
  (s.1 ++ missingValueIssues s.2, s.2)

/-- The validator run as the sequence of its four checks, starting from no
issues, returning the final `(issues, df)` state. -/
def validateSteps (df : DataFrame) : List String × DataFrame :=
  checkMissingVals (checkNegative (checkNumeric (checkRequired ([], df))))

/-- Modelled from the claim's wording (C10), to be compared with
`validate_data`: all six required columns are present, every value of the
five numeric columns parses as a number, none of those values is negative,
and no column contains a missing value. -/
def claimedCleanInput (df : DataFrame) : Bool :=
  requiredColumns.all (fun c => hasCol df c) &&
  numericColumns.all (fun c => (colCells df c).all (fun cell => (toNumeric cell).isSome)) &&
  numericColumns.all (fun c => (colCells df c).all (fun cell => !negParsed cell)) &&
  df.all (fun col => col.2.all (fun cell => !cell.isNa))

/-! ### Concrete input tables -/

/-- A table whose total net transaction count (`Receipts` sum) is `0`. -/
def dfZero : DataFrame :=
  [("Order type", [Cell.str "Bar"]), ("Total sales", [Cell.num 100]),
   ("Covers", [Cell.num 5]), ("Receipts", [Cell.num 0])]

/-- Metrics the engine computes on `dfZero`. -/
def mZero : Metrics :=
  [("total_sales", MVal.num 100), ("total_covers", MVal.num 5),
   ("total_receipts", MVal.num 0), ("avg_check", MVal.inf),
   ("revenue_per_cover", MVal.num 20), ("items_per_cover", MVal.num 0)]

/-- Breakdowns the engine computes on `dfZero`. -/
def bkZero : Breakdowns :=
  ⟨[(Cell.str "Bar", MVal.num 100)], [(Cell.str "Bar", MVal.num 5)],
   [(Cell.str "Bar", MVal.num 0)]⟩

/-- A table with a malformed cell (`N/A`) in its `Total sales` column; all
six required columns are present. -/
def dfNA : DataFrame :=
  [("Order type", [Cell.str "Bar", Cell.str "Cafe"]),
   ("Total sales", [Cell.str "N/A", Cell.num 100]),
   ("Covers", [Cell.num 5, Cell.num 4]),
   ("Receipts", [Cell.num 3, Cell.num 2]),
   ("USD/cover", [Cell.num 1, Cell.num 1]),
   ("USD/receipt", [Cell.num 1, Cell.num 1])]

/-- A table missing the required columns `USD/cover` and `USD/receipt`, but
with every column `calculate_metrics` touches present and numeric. -/
def df4 : DataFrame :=
  [("Order type", [Cell.str "Bar"]), ("Total sales", [Cell.num 100]),
   ("Covers", [Cell.num 4]), ("Receipts", [Cell.num 5])]

/-- Metrics the engine computes on `df4`. -/
def m4 : Metrics :=
  [("total_sales", MVal.num 100), ("total_covers", MVal.num 4),
   ("total_receipts", MVal.num 5), ("avg_check", MVal.num 20),
   ("revenue_per_cover", MVal.num 25),
   ("items_per_cover", MVal.num ((5 : ℚ) / 4))]

/-- Breakdowns the engine computes on `df4`. -/
def bk4 : Breakdowns :=
  ⟨[(Cell.str "Bar", MVal.num 100)], [(Cell.str "Bar", MVal.num 4)],
   [(Cell.str "Bar", MVal.num 5)]⟩

/-- The Scenario C row: gross, loss and returned amounts as currency
strings, under the spec's column names. -/
def dfC : DataFrame :=
  [("Transaction Amount", [Cell.str "$200.00"]),
   ("Loss Amount", [Cell.str "$50.00"]),
   ("Returned Amount", [Cell.str "$0"])]

/-- The Scenario A table exactly as the claim states it: sales figures are
the currency strings `$1,000.00` and `$500.00`. -/
def dfAstr : DataFrame :=
  [("Order type", [Cell.str "Dine-in", Cell.str "Other"]),
   ("Total sales", [Cell.str "$1,000.00", Cell.str "$500.00"]),
   ("Covers", [Cell.num 50, Cell.num 20]),
   ("Receipts", [Cell.num 80, Cell.num 30])]

/-- The Scenario A table with the sales figures as plain numbers. -/
def dfAnum : DataFrame :=
  [("Order type", [Cell.str "Dine-in", Cell.str "Other"]),
   ("Total sales", [Cell.num 1000, Cell.num 500]),
   ("Covers", [Cell.num 50, Cell.num 20]),
   ("Receipts", [Cell.num 80, Cell.num 30])]

/-- Metrics the engine computes on `dfAnum`. -/
def mA : Metrics :=
  [("total_sales", MVal.num 1500), ("total_covers", MVal.num 70),
   ("total_receipts", MVal.num 110),
   ("avg_check", MVal.num ((150 : ℚ) / 11)),
   ("revenue_per_cover", MVal.num ((150 : ℚ) / 7)),
   ("items_per_cover", MVal.num ((11 : ℚ) / 7))]

/-- Breakdowns the engine computes on `dfAnum`. -/
def bkA : Breakdowns :=
  ⟨[(Cell.str "Dine-in", MVal.num 1000), (Cell.str "Other", MVal.num 500)],
   [(Cell.str "Dine-in", MVal.num 50), (Cell.str "Other", MVal.num 20)],
   [(Cell.str "Dine-in", MVal.num 80), (Cell.str "Other", MVal.num 30)]⟩

/-- A minimal one-row table. -/
def dfSmall : DataFrame :=
  [("Order type", [Cell.str "X"]), ("Total sales", [Cell.num 1]),
   ("Covers", [Cell.num 1]), ("Receipts", [Cell.num 1])]

/-- Metrics the engine computes on `dfSmall`. -/
def mSmall : Metrics :=
  [("total_sales", MVal.num 1), ("total_covers", MVal.num 1),
   ("total_receipts", MVal.num 1), ("avg_check", MVal.num 1),
   ("revenue_per_cover", MVal.num 1), ("items_per_cover", MVal.num 1)]

/-- Breakdowns the engine computes on `dfSmall`. -/
def bkSmall : Breakdowns :=
  ⟨[(Cell.str "X", MVal.num 1)], [(Cell.str "X", MVal.num 1)],
   [(Cell.str "X", MVal.num 1)]⟩

/-- A second one-row table, with different figures than `dfSmall` in every
field. -/
def df7 : DataFrame :=
  [("Order type", [Cell.str "Y"]), ("Total sales", [Cell.num 8]),
   ("Covers", [Cell.num 2]), ("Receipts", [Cell.num 4])]

/-- A third one-row table (for instantiating the key-list property). -/
def df9 : DataFrame :=
  [("Order type", [Cell.str "Z"]), ("Total sales", [Cell.num 6]),
   ("Covers", [Cell.num 3]), ("Receipts", [Cell.num 2])]

/-- Metrics the engine computes on `df9`. -/
def m9 : Metrics :=
  [("total_sales", MVal.num 6), ("total_covers", MVal.num 3),
   ("total_receipts", MVal.num 2), ("avg_check", MVal.num 3),
   ("revenue_per_cover", MVal.num 2),
   ("items_per_cover", MVal.num ((2 : ℚ) / 3))]

/-- Breakdowns the engine computes on `df9`. -/
def bk9 : Breakdowns :=
  ⟨[(Cell.str "Z", MVal.num 6)], [(Cell.str "Z", MVal.num 3)],
   [(Cell.str "Z", MVal.num 2)]⟩

/-- A table on which metric computation raises: `Order type` is absent, so
the first `groupby` fails with `KeyError`. -/
def dfErr9 : DataFrame :=
  [("Total sales", [Cell.num 1])]

/-! ### Helper lemmas -/

/-- A successful division has two finite numeric operands. -/
lemma pyDiv_ok_shape {x y v : MVal} (h : pyDiv x y = .ok v) :
    ∃ a b : ℚ, x = .num a ∧ y = .num b := by
  cases x <;> cases y <;> simp [pyDiv] at h
  exact ⟨_, _, rfl, rfl⟩

/-- Characterization of a successful run of `calculate_metrics`: the three
column sums are finite numbers, the three groupbys succeed, the three
divisions succeed, and the returned dict is exactly the six formula values
in insertion order. -/
lemma calc_char {df : DataFrame} {m : Metrics} {bk : Breakdowns}
    (h : calculate_metrics df = some (m, bk)) :
    ∃ (ts tc tr : ℚ) (gts gtc gtr : List (Cell × MVal)) (av rv iv : MVal),
      sumColumn df "Total sales" = .ok (.num ts) ∧
      groupSum df "Order type" "Total sales" = .ok gts ∧
      sumColumn df "Covers" = .ok (.num tc) ∧
      groupSum df "Order type" "Covers" = .ok gtc ∧
      sumColumn df "Receipts" = .ok (.num tr) ∧
      groupSum df "Order type" "Receipts" = .ok gtr ∧
      pyDiv (.num ts) (.num tr) = .ok av ∧
      pyDiv (.num ts) (.num tc) = .ok rv ∧
      pyDiv (.num tr) (.num tc) = .ok iv ∧
      m = [("total_sales", .num ts), ("total_covers", .num tc),
           ("total_receipts", .num tr), ("avg_check", av),
           ("revenue_per_cover", rv), ("items_per_cover", iv)] ∧
      bk = ⟨gts, gtc, gtr⟩ := by
  cases h1 : sumColumn df "Total sales" with
  | error e => simp [calculate_metrics, calcInner, h1] at h
  | ok ts =>
  cases h2 : groupSum df "Order type" "Total sales" with
  | error e => simp [calculate_metrics, calcInner, h1, h2] at h
  | ok gts =>
  cases h3 : sumColumn df "Covers" with
  | error e => simp [calculate_metrics, calcInner, h1, h2, h3] at h
  | ok tc =>
  cases h4 : groupSum df "Order type" "Covers" with
  | error e => simp [calculate_metrics, calcInner, h1, h2, h3, h4] at h
  | ok gtc =>
  cases h5 : sumColumn df "Receipts" with
  | error e => simp [calculate_metrics, calcInner, h1, h2, h3, h4, h5] at h
  | ok tr =>
  cases h6 : groupSum df "Order type" "Receipts" with
  | error e => simp [calculate_metrics, calcInner, h1, h2, h3, h4, h5, h6] at h
  | ok gtr =>
  cases h7 : pyDiv ts tr with
  | error e => simp [calculate_metrics, calcInner, h1, h2, h3, h4, h5, h6, h7] at h
  | ok av =>
  cases h8 : pyDiv ts tc with
  | error e =>
      simp [calculate_metrics, calcInner, h1, h2, h3, h4, h5, h6, h7, h8] at h
  | ok rv =>
  cases h9 : pyDiv tr tc with
  | error e =>
      simp [calculate_metrics, calcInner, h1, h2, h3, h4, h5, h6, h7, h8, h9] at h
  | ok iv =>
    simp only [calculate_metrics, calcInner, h1, h2, h3, h4, h5, h6, h7, h8, h9,
      Option.some.injEq, Prod.mk.injEq] at h
    obtain ⟨a, b, hts, htr⟩ := pyDiv_ok_shape h7
    obtain ⟨a2, c, hts2, htc⟩ := pyDiv_ok_shape h8
    subst hts htr htc
    exact ⟨a, c, b, gts, gtc, gtr, av, rv, iv, rfl, rfl, rfl, rfl, rfl, rfl,
      h7, h8, h9, h.1.symm, h.2.symm⟩

/-- Summing a series that contains a string cell never produces a number:
it either concatenates (all cells strings) or raises `TypeError`. -/
lemma sumCells_with_str {cells : List Cell} {s : String}
    (hs : Cell.str s ∈ cells) :
    sumCells cells = .error () ∨ ∃ t, sumCells cells = .ok (.str t) := by
  have hv : Cell.str s ∈ cells.filter (fun c => !c.isNa) :=
    List.mem_filter.2 ⟨hs, by simp [Cell.isNa]⟩
  have hne : (cells.filter (fun c => !c.isNa)).isEmpty = false := by
    cases hfe : cells.filter (fun c => !c.isNa) with
    | nil => rw [hfe] at hv; cases hv
    | cons a l => rfl
  have hnotnum : (cells.filter (fun c => !c.isNa)).all Cell.isNum = false := by
    by_contra hx
    have hx' : (cells.filter (fun c => !c.isNa)).all Cell.isNum = true := by
      revert hx; cases (cells.filter (fun c => !c.isNa)).all Cell.isNum <;> simp
    have := List.all_eq_true.1 hx' _ hv
    simp [Cell.isNum] at this
  by_cases hstr : (cells.filter (fun c => !c.isNa)).all Cell.isStr = true
  · right
    refine ⟨String.join ((cells.filter (fun c => !c.isNa)).map Cell.sval), ?_⟩
    simp [sumCells, hne, hnotnum, hstr]
  · left
    have hstr' : (cells.filter (fun c => !c.isNa)).all Cell.isStr = false := by
      revert hstr; cases (cells.filter (fun c => !c.isNa)).all Cell.isStr <;> simp
    simp [sumCells, hne, hnotnum, hstr']

/-! ### C1 — zero total transaction count and the `undefined` sentinel -/

/-- C1, counterexample.  The claim says that on a table whose total net
transaction count is `0` the derived ratio is reported as the explicit
sentinel `undefined`, never NaN/Infinity propagated silently.  On `dfZero`
(total `Receipts` is `0`) the code instead produces a metrics dict whose
`avg_check` is silently `inf`: the unguarded division at app.py line 107
divides the numpy-scalar sums, which yields infinity rather than a sentinel
(the output domain has no `undefined` value at all, and `discount_rate` /
`loss_rate` are never computed). -/
theorem C1_no_undefined_sentinel :
    metricValue dfZero "avg_check" = some MVal.inf ∧
    calculate_metrics dfZero = some (mZero, bkZero) := by
  constructor <;> rfl

/-- C1, amended.  Whenever `calculate_metrics` returns metrics on a table
whose `Receipts` column sums to `0`, `avg_check` is the silently propagated
`inf`, `-inf` or `nan` — never an `undefined` sentinel, never a thrown
fault, and never a silent finite `0`. -/
theorem C1_zero_denominator_amended (df : DataFrame) (m : Metrics)
    (bk : Breakdowns) (h : calculate_metrics df = some (m, bk))
    (hz : sumColumn df "Receipts" = .ok (.num 0)) :
    List.lookup "avg_check" m = some MVal.inf ∨
    List.lookup "avg_check" m = some MVal.ninf ∨
    List.lookup "avg_check" m = some MVal.nan := by
  obtain ⟨ts, tc, tr, gts, gtc, gtr, av, rv, iv, h1, h2, h3, h4, h5, h6, h7, h8,
    h9, hm, hb⟩ := calc_char h
  rw [h5] at hz
  have htr : tr = 0 := by
    have := hz
    simp only [Except.ok.injEq, MVal.num.injEq] at this
    exact this
  subst htr
  have hav : av = if 0 < ts then MVal.inf else if ts < 0 then MVal.ninf
      else MVal.nan := by
    have hx := h7
    simp [pyDiv] at hx
    exact hx.symm
  subst hm
  have hl : List.lookup "avg_check"
      ([("total_sales", MVal.num ts), ("total_covers", MVal.num tc),
        ("total_receipts", MVal.num 0), ("avg_check", av),
        ("revenue_per_cover", rv), ("items_per_cover", iv)] : Metrics)
      = some av := rfl
  rw [hl, hav]
  by_cases hpos : 0 < ts
  · left; simp [hpos]
  · by_cases hneg : ts < 0
    · right; left; simp [hpos, hneg]
    · right; right; simp [hpos, hneg]

/-- C1, witness for the amended theorem, at the concrete table `dfZero`. -/
theorem C1_zero_denominator_witness :
    List.lookup "avg_check" mZero = some MVal.inf ∨
    List.lookup "avg_check" mZero = some MVal.ninf ∨
    List.lookup "avg_check" mZero = some MVal.nan :=
  C1_zero_denominator_amended dfZero mZero bkZero (by decide) (by rfl)

/-! ### C2 — totality of numeric coercion -/

/-- C2, counterexample.  The claim says a malformed cell is normalized to
`0`, a per-column coercion-failure counter is surfaced to the caller, and
the load is never aborted.  On `dfNA` (`Total sales` contains the cell
`N/A`) the code instead aborts metric computation — `Series.sum` on the
mixed column raises, the `except` returns `(None, None)`, and the load
yields `(None, None, None)` — while `validate_data` merely returns an issue
string, not a numeric counter, and no `0` is ever substituted. -/
theorem C2_malformed_aborts_load :
    calculate_metrics dfNA = none ∧
    load_sales_data dfNA = none ∧
    validate_data dfNA = ["Non-numeric values found in Total sales"] := by
  refine ⟨rfl, rfl, ?_⟩
  decide

/-- C2, amended.  A malformed (string) cell never throws out of
`validate_data` (which is total and reports it as an issue string), but it
is not replaced by `0`: any string cell in the `Total sales` column makes
`calculate_metrics` fail and return `(None, None)`, aborting the metric
phase of the load. -/
theorem C2_coercion_amended (df : DataFrame) (cells : List Cell) (s : String)
    (hc : getCol df "Total sales" = some cells) (hs : Cell.str s ∈ cells) :
    calculate_metrics df = none := by
  rcases sumCells_with_str hs with he | ⟨t, ht⟩
  · have hsc : sumColumn df "Total sales" = .error () := by
      simp [sumColumn, hc, he]
    simp [calculate_metrics, calcInner, hsc]
  · have hsc : sumColumn df "Total sales" = .ok (.str t) := by
      simp [sumColumn, hc, ht]
    have hinner : calcInner df = .error () := by
      unfold calcInner
      rw [hsc]
      cases h2 : groupSum df "Order type" "Total sales" with
      | error e => rfl
      | ok gts =>
      cases h3 : sumColumn df "Covers" with
      | error e => rfl
      | ok tc =>
      cases h4 : groupSum df "Order type" "Covers" with
      | error e => rfl
      | ok gtc =>
      cases h5 : sumColumn df "Receipts" with
      | error e => rfl
      | ok tr =>
      cases h6 : groupSum df "Order type" "Receipts" with
      | error e => rfl
      | ok gtr =>
        cases tr <;> rfl
    simp [calculate_metrics, hinner]

/-- C2, witness for the amended theorem, at the concrete table `dfNA`. -/
theorem C2_coercion_witness : calculate_metrics dfNA = none :=
  C2_coercion_amended dfNA [Cell.str "N/A", Cell.num 100] "N/A" (by decide)
    (by decide)

/-! ### C3 — missing required columns and fatal aborts -/

/-- C3, counterexample.  The claim says a sheet whose header lacks a
required field fails with a fatal `SchemaError` aborting the load.  `df4`
lacks the required columns `USD/cover` and `USD/receipt`; `validate_data`
reports them, yet the load completes with full metrics — nothing fatal
happens. -/
theorem C3_missing_required_no_abort :
    validate_data df4 = ["Missing required columns: USD/cover, USD/receipt"] ∧
    load_sales_data df4 = some (df4, m4, bk4) := by
  refine ⟨by decide, rfl⟩

/-- C3, amended.  Validation issues never abort the load: `load_sales_data`
returns `(None, None, None)` exactly when `calculate_metrics` itself failed
(e.g. a column it sums is absent), independent of the issue list.  (A value
absent on a single row is skipped by the sums, i.e. contributes zero, and
only produces a missing-value warning.) -/
theorem C3_abort_iff_metrics_fail (df : DataFrame) :
    load_sales_data df = none ↔ calculate_metrics df = none := by
  unfold load_sales_data
  cases h : calculate_metrics df with
  | none => simp
  | some r => cases r; simp

/-! ### C4 — per-row net amounts -/

/-- C4, counterexample.  The claim says every input row gets
`net_amount = gross_amount - loss_amount - returned_amount`, and that the
Scenario C row (`Transaction Amount` `$200.00`, `Loss Amount` `$50.00`,
`Returned Amount` `$0`) yields `net_amount = 150.00`.  The code computes no
per-row net amount at all: on that row it fails outright (`KeyError` on the
absent `Total sales` column) and returns `(None, None)`, so no `150.00` is
ever produced. -/
theorem C4_no_net_amount :
    calculate_metrics dfC = none ∧ load_sales_data dfC = none := ⟨rfl, rfl⟩

/-- C4, amended.  The code derives no net figures: a sheet keyed by the
spec's gross/loss/return columns instead of `Total sales` makes
`calculate_metrics` raise `KeyError` (caught, returning `(None, None)`). -/
theorem C4_missing_gross_amended (df : DataFrame)
    (h : getCol df "Total sales" = none) : calculate_metrics df = none := by
  have hsc : sumColumn df "Total sales" = .error () := by simp [sumColumn, h]
  simp [calculate_metrics, calcInner, hsc]

/-- C4, witness for the amended theorem, at the empty table. -/
theorem C4_missing_gross_witness : calculate_metrics [] = none :=
  C4_missing_gross_amended [] rfl

/-! ### C5 — Scenario A -/

/-- C5, counterexample.  On the Scenario A input exactly as stated (sales
cells are the currency strings `$1,000.00` and `$500.00`), the engine does
not produce `total_net_sales = 1500.00`: summing the object column
concatenates the strings, the division at line 107 then raises `TypeError`,
and `calculate_metrics` returns `(None, None)`, so the load fails —
and the code builds no Category, Product or reconciliation-warning objects
in any case. -/
theorem C5_scenarioA_strings_fail :
    calculate_metrics dfAstr = none ∧ load_sales_data dfAstr = none :=
  ⟨rfl, rfl⟩

/-- C5, amended.  With the two sales figures as plain numbers `1000` and
`500`, the engine computes `total_sales = 1500.00` (with covers `70`,
receipts `110` and the three derived ratios), grouped by the two order
types; there are no Category/Product objects and no reconciliation
machinery in the code, so nothing further is produced. -/
theorem C5_scenarioA_numeric_amended :
    metricValue dfAnum "total_sales" = some (MVal.num 1500) ∧
    calculate_metrics dfAnum = some (mA, bkA) := by
  constructor <;> rfl

/-! ### C6 — determinism / idempotence -/

/-- C6, confirmed.  The engine is a pure function of its input table: both
the validator and the metric computation read only their argument and
return fresh results, so two invocations on equal tables give identical
output — there is no hidden mutable state carried between loads (the only
process-wide state in the script, `st.session_state.authenticated`, is
never touched by these functions). -/
theorem C6_engine_deterministic (df1 df2 : DataFrame) (h : df1 = df2) :
    validate_data df1 = validate_data df2 ∧
    calculate_metrics df1 = calculate_metrics df2 ∧
    load_sales_data df1 = load_sales_data df2 := by
  subst h; exact ⟨rfl, rfl, rfl⟩

/-- C6, witness at the concrete table `dfSmall`. -/
theorem C6_engine_deterministic_witness :
    validate_data dfSmall = validate_data dfSmall ∧
    calculate_metrics dfSmall = calculate_metrics dfSmall ∧
    load_sales_data dfSmall = load_sales_data dfSmall :=
  C6_engine_deterministic dfSmall dfSmall rfl

/-! ### C7 — summaries computed from row data, no hardcoded constants -/

/-- C7, confirmed.  Every metric the engine returns is the stated formula
of the input column sums: whenever metrics are produced, the dict is
exactly the three column sums followed by their three quotients — and the
values genuinely track the input, as two tables differing in their figures
produce six pairwise different metric values (no metric is a hardcoded
literal constant). -/
theorem C7_metrics_from_row_data :
    (∀ df m bk, calculate_metrics df = some (m, bk) →
      ∃ (ts tc tr : ℚ) (av rv iv : MVal),
        sumColumn df "Total sales" = .ok (.num ts) ∧
        sumColumn df "Covers" = .ok (.num tc) ∧
        sumColumn df "Receipts" = .ok (.num tr) ∧
        pyDiv (.num ts) (.num tr) = .ok av ∧
        pyDiv (.num ts) (.num tc) = .ok rv ∧
        pyDiv (.num tr) (.num tc) = .ok iv ∧
        m = [("total_sales", .num ts), ("total_covers", .num tc),
             ("total_receipts", .num tr), ("avg_check", av),
             ("revenue_per_cover", rv), ("items_per_cover", iv)]) ∧
    metricValue dfSmall "total_sales" ≠ metricValue df7 "total_sales" ∧
    metricValue dfSmall "total_covers" ≠ metricValue df7 "total_covers" ∧
    metricValue dfSmall "total_receipts" ≠ metricValue df7 "total_receipts" ∧
    metricValue dfSmall "avg_check" ≠ metricValue df7 "avg_check" ∧
    metricValue dfSmall "revenue_per_cover" ≠ metricValue df7 "revenue_per_cover" ∧
    metricValue dfSmall "items_per_cover" ≠ metricValue df7 "items_per_cover" := by
  constructor
  · intro df m bk h
    obtain ⟨ts, tc, tr, gts, gtc, gtr, av, rv, iv, h1, h2, h3, h4, h5, h6, h7,
      h8, h9, hm, hb⟩ := calc_char h
    exact ⟨ts, tc, tr, av, rv, iv, h1, h3, h5, h7, h8, h9, hm⟩
  · refine ⟨?_, ?_, ?_, ?_, ?_, ?_⟩ <;> decide

/-- C7, witness: the formula characterization instantiated at the concrete
table `dfSmall`. -/
theorem C7_metrics_from_row_data_witness :
    ∃ (ts tc tr : ℚ) (av rv iv : MVal),
      sumColumn dfSmall "Total sales" = .ok (.num ts) ∧
      sumColumn dfSmall "Covers" = .ok (.num tc) ∧
      sumColumn dfSmall "Receipts" = .ok (.num tr) ∧
      pyDiv (.num ts) (.num tr) = .ok av ∧
      pyDiv (.num ts) (.num tc) = .ok rv ∧
      pyDiv (.num tr) (.num tc) = .ok iv ∧
      mSmall = [("total_sales", .num ts), ("total_covers", .num tc),
                ("total_receipts", .num tr), ("avg_check", av),
                ("revenue_per_cover", rv), ("items_per_cover", iv)] :=
  C7_metrics_from_row_data.1 dfSmall mSmall bkSmall (by rfl)

/-! ### C8 — the validator does not modify its input -/

/-- C8, confirmed.  Running the validator as a state-threading pass over
`(issues, df)` leaves the frame component untouched through all four
checks and produces exactly the issue-string list `validate_data` returns:
the function's only output is that list, and the input dataframe's columns
and values are unchanged after the call. -/
theorem C8_validate_pure (df : DataFrame) :
    validateSteps df = (validate_data df, df) := by
  simp [validateSteps, checkMissingVals, checkNegative, checkNumeric,
    checkRequired, validate_data, List.append_assoc]

/-! ### C9 — exception handling and the metric keys -/

/-- C9, confirmed.  If any step of metric computation raises,
`calculate_metrics` catches the exception and returns `(None, None)`;
otherwise it returns the two dicts, and the metrics dict has exactly the
keys `total_sales`, `total_covers`, `total_receipts`, `avg_check`,
`revenue_per_cover`, `items_per_cover`, in insertion order. -/
theorem C9_exceptions_and_keys (df : DataFrame) :
    (calcInner df = .error () → calculate_metrics df = none) ∧
    (∀ m bk, calculate_metrics df = some (m, bk) →
      m.map Prod.fst = ["total_sales", "total_covers", "total_receipts",
        "avg_check", "revenue_per_cover", "items_per_cover"]) := by
  constructor
  · intro h; simp [calculate_metrics, h]
  · intro m bk h
    obtain ⟨ts, tc, tr, gts, gtc, gtr, av, rv, iv, h1, h2, h3, h4, h5, h6, h7,
      h8, h9, hm, hb⟩ := calc_char h
    subst hm; rfl

/-- C9, witness: the error path at `dfErr9` (whose `groupby` raises
`KeyError`) and the key list at the concrete table `df9`. -/
theorem C9_exceptions_and_keys_witness :
    calculate_metrics dfErr9 = none ∧
    m9.map Prod.fst = ["total_sales", "total_covers", "total_receipts",
      "avg_check", "revenue_per_cover", "items_per_cover"] :=
  ⟨(C9_exceptions_and_keys dfErr9).1 (by rfl),
   (C9_exceptions_and_keys df9).2 m9 bk9 (by rfl)⟩

/-! ### C10 — exact characterization of a clean validation report -/

/-- The first check reports nothing iff every required column is present. -/
lemma missingCols_nil_iff (df : DataFrame) :
    missingColsIssues df = [] ↔
      requiredColumns.all (fun c => hasCol df c) = true := by
  unfold missingColsIssues
  constructor
  · intro hnil
    by_cases h : (requiredColumns.filter (fun c => !hasCol df c)).isEmpty = true
    · rw [List.isEmpty_iff] at h
      rw [List.all_eq_true]
      intro c hc
      cases hb : hasCol df c
      · exfalso
        have hmem : c ∈ requiredColumns.filter (fun x => !hasCol df x) :=
          List.mem_filter.2 ⟨hc, by simp [hb]⟩
        rw [h] at hmem
        cases hmem
      · rfl
    · rw [if_neg h] at hnil; cases hnil
  · intro hall
    have h : requiredColumns.filter (fun c => !hasCol df c) = [] := by
      rw [List.filter_eq_nil_iff]
      intro a ha
      have := List.all_eq_true.1 hall a ha
      simp [this]
    simp [h]

/-- The second check reports nothing iff, per present numeric column, every
cell coerces to a number. -/
lemma nonNumeric_nil_iff (df : DataFrame) :
    nonNumericIssues df = [] ↔
      numericColumns.all
        (fun c => (colCells df c).all (fun cell => (toNumeric cell).isSome)) = true := by
  unfold nonNumericIssues
  rw [List.filterMap_eq_nil_iff, List.all_eq_true]
  constructor
  · intro h c hc
    have hcc := h c hc
    cases hg : getCol df c with
    | none => simp [colCells, hg]
    | some cells =>
        simp only [hg] at hcc
        by_cases hall : cells.all (fun cell => (toNumeric cell).isSome) = true
        · simpa [colCells, hg] using hall
        · rw [if_neg hall] at hcc; cases hcc
  · intro h c hc
    have hcc := h c hc
    cases hg : getCol df c with
    | none => simp [hg]
    | some cells =>
        simp only [colCells, hg, Option.getD_some] at hcc
        simp [hg, hcc]

/-- The third check reports nothing iff no coerced cell of a present
numeric column is negative. -/
lemma negative_nil_iff (df : DataFrame) :
    negativeIssues df = [] ↔
      numericColumns.all
        (fun c => (colCells df c).all (fun cell => !negParsed cell)) = true := by
  unfold negativeIssues
  rw [List.filterMap_eq_nil_iff, List.all_eq_true]
  constructor
  · intro h c hc
    have hcc := h c hc
    cases hg : getCol df c with
    | none => simp [colCells, hg]
    | some cells =>
        simp only [hg] at hcc
        by_cases hany : cells.any negParsed = true
        · rw [if_pos hany] at hcc; cases hcc
        · have hf : cells.any negParsed = false := by
            cases hb : cells.any negParsed
            · rfl
            · exact absurd hb hany
          simp only [colCells, hg, Option.getD_some, List.all_eq_true]
          intro cell hcell
          have := List.any_eq_false.1 hf cell hcell
          simp [this]
  · intro h c hc
    have hcc := h c hc
    cases hg : getCol df c with
    | none => simp [hg]
    | some cells =>
        simp only [colCells, hg, Option.getD_some] at hcc
        have hf : cells.any negParsed = false := by
          rw [List.any_eq_false]
          intro cell hcell
          have hx := List.all_eq_true.1 hcc cell hcell
          simp at hx
          simp [hx]
        simp [hg, hf]

/-- The fourth check reports nothing iff no column contains a missing
value. -/
lemma missingVals_nil_iff (df : DataFrame) :
    missingValueIssues df = [] ↔
      df.all (fun col => col.2.all (fun cell => !cell.isNa)) = true := by
  unfold missingValueIssues
  rw [List.filterMap_eq_nil_iff, List.all_eq_true]
  constructor
  · intro h col hcol
    have hcc := h col hcol
    by_cases hz : (col.2.filter Cell.isNa).length > 0
    · rw [if_pos hz] at hcc; cases hcc
    · have hlen : (col.2.filter Cell.isNa).length = 0 := Nat.eq_zero_of_not_pos hz
      have hfe : col.2.filter Cell.isNa = [] := List.length_eq_zero.1 hlen
      rw [List.all_eq_true]
      intro cell hcell
      cases hb : cell.isNa
      · rfl
      · exfalso
        have hmem : cell ∈ col.2.filter Cell.isNa := List.mem_filter.2 ⟨hcell, hb⟩
        rw [hfe] at hmem
        cases hmem
  · intro h col hcol
    have hall := h col hcol
    have hfe : col.2.filter Cell.isNa = [] := by
      rw [List.filter_eq_nil_iff]
      intro a ha
      have hx := List.all_eq_true.1 hall a ha
      simp at hx
      simp [hx]
    simp [hfe]

/-- C10, confirmed.  The validator returns an empty issue list exactly when
all six required columns are present, every value of the five numeric
columns parses as a number, none of those values is negative, and no
column of the dataframe contains a missing value. -/
theorem C10_clean_report_iff (df : DataFrame) :
    validate_data df = [] ↔ claimedCleanInput df = true := by
  have h1 := missingCols_nil_iff df
  have h2 := nonNumeric_nil_iff df
  have h3 := negative_nil_iff df
  have h4 := missingVals_nil_iff df
  unfold validate_data claimedCleanInput
  simp only [List.append_eq_nil, Bool.and_eq_true]
  rw [h1, h2, h3, h4]

end Hemlock
